import Mathlib

/-!
Verification of the rules-evaluation core of the Guestara menu/booking
backend: the tax-inheritance resolver (`src/utils/taxEngine.js`), the
five-variant pricing engine (`src/utils/pricingEngine.js`), the add-on
selection validator (`AddonGroup` model), the booking availability and
conflict evaluator (`Booking` model, `BookingService`), and the price
orchestrator (`ItemService.calculatePrice`).

Modelling conventions:
* monetary values and percentages are `ℚ` (the source uses JS numbers and
  works with decimal literals; `ℚ` captures the intended exact decimal
  arithmetic, and `Math.round` becomes rounding on `ℚ`);
* `"HH:MM"` time-of-day strings are represented by their hour and minute
  fields (structure `HM`); the rendering used throughout the source is
  canonical two-digit, so MongoDB's lexicographic string comparison is
  lexicographic comparison of `(hour, minute)` pairs, which is how the
  comparison operators of the Mongo conflict query are embedded;
* a `Date` is abstracted to an index identifying the calendar day plus its
  day-of-week (structure `BDate`), and a `datetime` instant to a
  day-of-week and an `HM` (exactly the two projections the source takes
  with `getDay()`/`getHours()`/`getMinutes()`);
* Mongo document references are resolved at the boundary: an `Option` of
  the referenced entity stands for `findById` having succeeded or not, and
  the stored collection scanned by a `find` query is passed as a list;
* JS `throw` of an error object becomes `Except String` carrying the
  `message` field.
-/

namespace Guestara

/-- Time of day: an `"HH:MM"` string of the source, represented by its
hour and minute fields. -/
structure HM where
  hh : ℕ
  mm : ℕ
deriving Repr, DecidableEq

/-- The `toMinutes` helper defined identically in
`bookingSchema.statics.isTimeOverlapping`,
`BookingService.isTimeWithinSlot` and `PricingEngine.isTimeInRange`:
`hours * 60 + minutes`. -/
def toMinutes (t : HM) : ℕ := t.hh * 60 + t.mm

/-- The time string is a well-formed `"HH:MM"` value. -/
def HM.valid (t : HM) : Prop := t.hh < 24 ∧ t.mm < 60

instance (t : HM) : Decidable t.valid := by
  unfold HM.valid; infer_instance

/-- Lexicographic `≤` on canonical `"HH:MM"` strings: MongoDB's `$lte` on
the stored time strings. -/
def hmLe (a b : HM) : Bool := a.hh < b.hh || (a.hh == b.hh && a.mm ≤ b.mm)

/-- Lexicographic `<` on canonical `"HH:MM"` strings: MongoDB's `$lt` on
the stored time strings. -/
def hmLt (a b : HM) : Bool := a.hh < b.hh || (a.hh == b.hh && a.mm < b.mm)

/-- A calendar day: an abstract index (equality of `booking_date` values)
together with its day-of-week 0-6 (`Date.prototype.getDay`). -/
structure BDate where
  idx : ℤ
  dow : ℕ
deriving Repr, DecidableEq

/-- JS `Math.round`: round half toward positive infinity. -/
def jsRound (q : ℚ) : ℤ := ⌊q + 1/2⌋

/-- Round to two decimal places the way the source does it:
`Math.round(x * 100) / 100`. -/
def round2 (q : ℚ) : ℚ := (jsRound (q * 100) : ℚ) / 100

/-! ## Data model: add-on groups (`models/AddonGroup.js`) -/

/-- An individual add-on (`addonSchema`): subdocument id, name,
nonnegative price, active flag. -/
structure Addon where
  id : ℕ
  name : String
  price : ℚ
  is_active : Bool
deriving Repr, DecidableEq

/-- An add-on group (`addonGroupSchema`). `type` is `"OPTIONAL"` or
`"MANDATORY"`, `selection_type` is `"SINGLE"` or `"MULTIPLE"`. -/
structure AddonGroup where
  id : ℕ
  name : String
  type : String
  selection_type : String
  min_selections : ℕ
  max_selections : ℕ
  addons : List Addon
  is_active : Bool
deriving Repr, DecidableEq

/-- Result shape of `addonGroupSchema.methods.validateSelections`. -/
structure ValidationResult where
  valid : Bool
  error : Option String
deriving Repr, DecidableEq

/-- `addonGroupSchema.methods.validateSelections`: intersect the selected
ids with the group's active addons, then check the count against
`min_selections`/`max_selections`. -/
def AddonGroup.validateSelections (g : AddonGroup) (selectedAddonIds : List ℕ) :
    ValidationResult :=
  let activeAddons := g.addons.filter (fun a => a.is_active)
  let validSelections := selectedAddonIds.filter
    (fun i => activeAddons.any (fun a => a.id == i))
  if validSelections.length < g.min_selections then
    ⟨false, some ("Minimum " ++ toString g.min_selections ++
      " selection(s) required for " ++ g.name)⟩
  else if validSelections.length > g.max_selections then
    ⟨false, some ("Maximum " ++ toString g.max_selections ++
      " selection(s) allowed for " ++ g.name)⟩
  else ⟨true, none⟩

/-- `addonGroupSchema.methods.calculateSelectedPrice`: sum the price of
every active addon of the group whose id is among the selected ids. -/
def AddonGroup.calculateSelectedPrice (g : AddonGroup) (selectedAddonIds : List ℕ) : ℚ :=
  g.addons.foldl
    (fun total addon =>
      if selectedAddonIds.contains addon.id && addon.is_active then total + addon.price
      else total)
    0

/-! ## Data model: pricing configuration (`models/Item.js`) -/

/-- A quantity tier (`tierSchema`): `min_quantity`, `max_quantity`,
unit `price`. Quantities are integers (Joi: `integer().min(0)`). -/
structure Tier where
  min_quantity : ℕ
  max_quantity : ℕ
  price : ℚ
deriving Repr, DecidableEq

/-- Discount subdocument of a `DISCOUNTED` config. `type` is `"FLAT"` or
`"PERCENTAGE"`; both fields are optional at the schema level, so the
engine guards each with truthiness checks / `|| 0` defaults. -/
structure Discount where
  type : Option String
  value : Option ℚ
deriving Repr, DecidableEq

/-- A dynamic pricing rule (`dynamicPricingRuleSchema`). `days = none`
models an absent array (the engine's `!rule.days` check); `priority`
defaults to 0 via `rule.priority || 0`. -/
structure DynamicRule where
  name : String
  days : Option (List ℕ)
  start_time : HM
  end_time : HM
  price : ℚ
  priority : Option ℤ
deriving Repr, DecidableEq

/-- The pricing configuration (`pricingConfigSchema`): a `type` tag plus
the optional per-variant fields. -/
structure PricingConfig where
  type : String
  base_price : Option ℚ
  tiers : List Tier
  discount : Option Discount
  dynamic_rules : List DynamicRule
  default_price : Option ℚ
deriving Repr, DecidableEq

/-! ## Data model: catalog hierarchy -/

/-- A category (`models/Category.js`). `tax_applicable` is a plain
boolean with schema default `false` (never null), the root of the tax
inheritance chain; `tax_percentage` may be unset. -/
structure Category where
  id : ℕ
  name : String
  tax_applicable : Bool
  tax_percentage : Option ℚ
  is_active : Bool
deriving Repr, DecidableEq

/-- A subcategory (`models/Subcategory.js`). `tax_applicable = none`
models the schema's `null` ("inherit from category"). The `category`
field holds the resolved parent, `none` when the reference does not
resolve. -/
structure Subcategory where
  id : ℕ
  name : String
  category : Option Category
  tax_applicable : Option Bool
  tax_percentage : Option ℚ
  is_active : Bool
deriving Repr, DecidableEq

/-- A weekly availability slot (`availabilitySlotSchema`): day-of-week
0-6, window start/end, capacity. -/
structure AvailabilitySlot where
  day : ℕ
  start_time : HM
  end_time : HM
  max_bookings : ℕ
deriving Repr, DecidableEq

/-- An item (`models/Item.js`), with its references resolved:
`category`/`subcategory` as in `findById` + `populate`, and
`addon_groups` as the populated list of groups. `tax_applicable = none`
is the schema's `null` ("inherit"). -/
structure Item where
  id : ℕ
  name : String
  category : Option Category
  subcategory : Option Subcategory
  tax_applicable : Option Bool
  tax_percentage : Option ℚ
  pricing : PricingConfig
  is_bookable : Bool
  availability_slots : List AvailabilitySlot
  addon_groups : List AddonGroup
  is_active : Bool
deriving Repr, DecidableEq

/-! ## Tax engine (`src/utils/taxEngine.js`) -/

/-- Result shape of `TaxEngine.getEffectiveTax`. -/
structure TaxResult where
  tax_applicable : Bool
  tax_percentage : ℚ
  inherited_from : String
  source_id : Option ℕ
deriving Repr, DecidableEq

/-- The tail of `TaxEngine.getEffectiveTax`: the `if (item.category)`
lookup followed by the no-tax default. -/
def itemCategoryTax (item : Item) : TaxResult :=
  match item.category with
  | some category =>
    ⟨category.tax_applicable,
     if category.tax_applicable then category.tax_percentage.getD 0 else 0,
     "category", some category.id⟩
  | none => ⟨false, 0, "default", none⟩

/-- `TaxEngine.getEffectiveTax`: item's own setting when not null, else
the subcategory's when present and not null, else the subcategory's
category, else the item's direct category, else the no-tax default.
`tax_percentage` is `stored || 0` when applicable, `0` otherwise. -/
def getEffectiveTax (item : Item) : TaxResult :=
  match item.tax_applicable with
  | some b =>
    ⟨b, if b then item.tax_percentage.getD 0 else 0, "item", some item.id⟩
  | none =>
    match item.subcategory with
    | some subcategory =>
      match subcategory.tax_applicable with
      | some b =>
        ⟨b, if b then subcategory.tax_percentage.getD 0 else 0,
         "subcategory", some subcategory.id⟩
      | none =>
        match subcategory.category with
        | some category =>
          ⟨category.tax_applicable,
           if category.tax_applicable then category.tax_percentage.getD 0 else 0,
           "category", some category.id⟩
        | none => itemCategoryTax item
    | none => itemCategoryTax item

/-- Result shape of `TaxEngine.calculateTax`. -/
structure TaxCalculation where
  original_amount : ℚ
  tax_percentage : ℚ
  tax_amount : ℚ
  total_with_tax : ℚ
deriving Repr, DecidableEq

/-- `TaxEngine.calculateTax`: `taxAmount = amount * pct / 100`;
`tax_amount = Math.round(taxAmount * 100) / 100`;
`total_with_tax = Math.round((amount + taxAmount) * 100) / 100`. -/
def calculateTax (amount taxPercentage : ℚ) : TaxCalculation :=
  let taxAmount := amount * taxPercentage / 100
  { original_amount := amount
    tax_percentage := taxPercentage
    tax_amount := (jsRound (taxAmount * 100) : ℚ) / 100
    total_with_tax := (jsRound ((amount + taxAmount) * 100) : ℚ) / 100 }

/-! ## Pricing engine (`src/utils/pricingEngine.js`) -/

/-- Result shape of the `PricingEngine.calculate*Price` functions.
The per-variant audit extras (`tier_details`, `rule_details`) are kept;
the `current_day`/`current_time` echoes of the dynamic variant are not
modelled. -/
structure PriceResult where
  pricing_type : String
  pricing_rule_applied : String
  unit_price : ℚ
  quantity : ℕ
  base_price : ℚ
  discount_amount : ℚ
  calculated_price : ℚ
  tier_details : Option Tier := none
  rule_details : Option DynamicRule := none
deriving Repr, DecidableEq

/-- `PricingEngine.calculateStaticPrice`. -/
def calculateStaticPrice (pricingConfig : PricingConfig) (quantity : ℕ) : PriceResult :=
  let basePrice := pricingConfig.base_price.getD 0
  let totalPrice := basePrice * quantity
  { pricing_type := "STATIC"
    pricing_rule_applied := "Fixed Price"
    unit_price := basePrice
    quantity := quantity
    base_price := totalPrice
    discount_amount := 0
    calculated_price := totalPrice }

/-- Ordering used by `calculateTieredPrice`'s
`sort((a, b) => a.min_quantity - b.min_quantity)`. -/
def tierLE (a b : Tier) : Prop := a.min_quantity ≤ b.min_quantity

instance : DecidableRel tierLE := fun a b => by
  unfold tierLE; infer_instance

instance : IsTotal Tier tierLE := ⟨fun a b => Nat.le_total _ _⟩

instance : IsTrans Tier tierLE := ⟨fun _ _ _ => Nat.le_trans⟩

/-- The sorted copy `[...tiers].sort((a, b) => a.min_quantity - b.min_quantity)`
(a stable ascending sort by `min_quantity`). -/
def sortTiers (tiers : List Tier) : List Tier := tiers.insertionSort tierLE

/-- The `Tier ${min}-${max}` label of `calculateTieredPrice`. -/
def tierLabel (t : Tier) : String :=
  "Tier " ++ toString t.min_quantity ++ "-" ++ toString t.max_quantity

/-- `PricingEngine.calculateTieredPrice`: sort tiers ascending by
`min_quantity`, take the first tier with
`min_quantity ≤ quantity ≤ max_quantity`; otherwise fall back to the last
sorted tier, or a synthetic `{price: default_price || 0}` tier when there
are no tiers, labelled `Default/Overflow`. -/
def calculateTieredPrice (pricingConfig : PricingConfig) (quantity : ℕ) : PriceResult :=
  match (sortTiers pricingConfig.tiers).find?
      (fun tier => decide (tier.min_quantity ≤ quantity) &&
                   decide (quantity ≤ tier.max_quantity)) with
  | some tier =>
    { pricing_type := "TIERED"
      pricing_rule_applied := tierLabel tier
      tier_details := some tier
      unit_price := tier.price
      quantity := quantity
      base_price := tier.price * quantity
      discount_amount := 0
      calculated_price := tier.price * quantity }
  | none =>
    match (sortTiers pricingConfig.tiers).getLast? with
    | some tier =>
      { pricing_type := "TIERED"
        pricing_rule_applied := "Default/Overflow"
        tier_details := some tier
        unit_price := tier.price
        quantity := quantity
        base_price := tier.price * quantity
        discount_amount := 0
        calculated_price := tier.price * quantity }
    | none =>
      { pricing_type := "TIERED"
        pricing_rule_applied := "Default/Overflow"
        tier_details := none
        unit_price := pricingConfig.default_price.getD 0
        quantity := quantity
        base_price := pricingConfig.default_price.getD 0 * quantity
        discount_amount := 0
        calculated_price := pricingConfig.default_price.getD 0 * quantity }

/-- `PricingEngine.calculateComplimentaryPrice`: always free, quantity
normalized to 1. -/
def calculateComplimentaryPrice : PriceResult :=
  { pricing_type := "COMPLIMENTARY"
    pricing_rule_applied := "Complimentary"
    unit_price := 0
    quantity := 1
    base_price := 0
    discount_amount := 0
    calculated_price := 0 }

/-- `PricingEngine.calculateDiscountedPrice`: base amount
`basePrice * quantity`; the discount is the flat value or
`totalBase * value / 100`, then clamped with
`Math.min(discountAmount, totalBase)`. -/
def calculateDiscountedPrice (pricingConfig : PricingConfig) (quantity : ℕ) : PriceResult :=
  let basePrice := pricingConfig.base_price.getD 0
  let totalBase := basePrice * quantity
  let raw : ℚ × String :=
    match pricingConfig.discount with
    | some discount =>
      match discount.type with
      | some dtype =>
        let discountValue := discount.value.getD 0
        if dtype = "FLAT" then
          (discountValue, "Flat discount: " ++ toString discountValue)
        else if dtype = "PERCENTAGE" then
          (totalBase * discountValue / 100, toString discountValue ++ "% off")
        else (0, "No discount")
      | none => (0, "No discount")
    | none => (0, "No discount")
  let discountAmount := min raw.1 totalBase
  { pricing_type := "DISCOUNTED"
    pricing_rule_applied := raw.2
    unit_price := basePrice
    quantity := quantity
    base_price := totalBase
    discount_amount := discountAmount
    calculated_price := totalBase - discountAmount }

/-- `PricingEngine.isTimeInRange`: membership of `time` in
`[startTime, endTime)` in minutes-of-day, where a window with
`end < start` wraps past midnight (`current ≥ start || current < end`). -/
def isTimeInRange (time startTime endTime : HM) : Bool :=
  let current := toMinutes time
  let start := toMinutes startTime
  let ending := toMinutes endTime
  if ending < start then decide (current ≥ start) || decide (current < ending)
  else decide (current ≥ start) && decide (current < ending)

/-- The per-rule test of `calculateDynamicPrice`'s selection loop:
`isDayMatch && isTimeMatch`, where
`isDayMatch = !rule.days || rule.days.length === 0 || rule.days.includes(dayOfWeek)`. -/
def ruleMatches (rule : DynamicRule) (dayOfWeek : ℕ) (time : HM) : Bool :=
  (match rule.days with
   | none => true
   | some days => days.isEmpty || days.contains dayOfWeek) &&
  isTimeInRange time rule.start_time rule.end_time

/-- Ordering used by `calculateDynamicPrice`'s
`sort((a, b) => (b.priority || 0) - (a.priority || 0))`
(descending by priority). -/
def ruleGE (a b : DynamicRule) : Prop := b.priority.getD 0 ≤ a.priority.getD 0

instance : DecidableRel ruleGE := fun a b => by
  unfold ruleGE; infer_instance

instance : IsTotal DynamicRule ruleGE := ⟨fun a b => Int.le_total _ _⟩

instance : IsTrans DynamicRule ruleGE := ⟨fun _ _ _ h h2 => Int.le_trans h2 h⟩

/-- The sorted copy `[...rules].sort((a, b) => (b.priority || 0) - (a.priority || 0))`
(a stable descending sort by priority; ties keep declaration order, as
JS `Array.prototype.sort` is stable). -/
def sortRules (rules : List DynamicRule) : List DynamicRule :=
  rules.insertionSort ruleGE

/-- `PricingEngine.calculateDynamicPrice`: the datetime is abstracted to
its `getDay()` and `HH:MM` projections. The first matching rule of the
priority-sorted list wins; with no match the `default_price || 0`
applies under the `Default Price` label. -/
def calculateDynamicPrice (pricingConfig : PricingConfig) (quantity : ℕ)
    (dayOfWeek : ℕ) (currentTime : HM) : PriceResult :=
  match (sortRules pricingConfig.dynamic_rules).find?
      (fun rule => ruleMatches rule dayOfWeek currentTime) with
  | some rule =>
    { pricing_type := "DYNAMIC"
      pricing_rule_applied := rule.name
      rule_details := some rule
      unit_price := rule.price
      quantity := quantity
      base_price := rule.price * quantity
      discount_amount := 0
      calculated_price := rule.price * quantity }
  | none =>
    { pricing_type := "DYNAMIC"
      pricing_rule_applied := "Default Price"
      rule_details := none
      unit_price := pricingConfig.default_price.getD 0
      quantity := quantity
      base_price := pricingConfig.default_price.getD 0 * quantity
      discount_amount := 0
      calculated_price := pricingConfig.default_price.getD 0 * quantity }

/-- `PricingEngine.calculatePrice`: dispatch on the pricing type; an
unknown type throws. -/
def enginePrice (pricingConfig : PricingConfig) (quantity : ℕ)
    (dayOfWeek : ℕ) (currentTime : HM) : Except String PriceResult :=
  match pricingConfig.type with
  | "STATIC" => .ok (calculateStaticPrice pricingConfig quantity)
  | "TIERED" => .ok (calculateTieredPrice pricingConfig quantity)
  | "COMPLIMENTARY" => .ok calculateComplimentaryPrice
  | "DISCOUNTED" => .ok (calculateDiscountedPrice pricingConfig quantity)
  | "DYNAMIC" => .ok (calculateDynamicPrice pricingConfig quantity dayOfWeek currentTime)
  | t => .error ("Unknown pricing type: " ++ t)

/-- The adjacent-pair overlap scan of `validatePricingConfig`'s `TIERED`
case: for `i` from 0, an error is recorded whenever
`tiers[i].max_quantity >= tiers[i+1].min_quantity` in the sorted list. -/
def tierOverlapErrors : ℕ → List Tier → List String
  | i, a :: b :: rest =>
    (if b.min_quantity ≤ a.max_quantity then
      ["Tier overlap detected between tier " ++ toString (i + 1) ++
       " and tier " ++ toString (i + 2)]
     else []) ++ tierOverlapErrors (i + 1) (b :: rest)
  | _, _ => []

/-- Result shape of `PricingEngine.validatePricingConfig`. -/
structure ConfigValidation where
  valid : Bool
  errors : List String
deriving Repr, DecidableEq

/-- `PricingEngine.validatePricingConfig`: type-specific write-time
checks (required fields, nonnegative base price, at least one
tier/rule, no overlapping tiers). An absent `type` is modelled by the
empty string (JS falsiness of `undefined`/`""`). -/
def validatePricingConfig (pricingConfig : PricingConfig) : ConfigValidation :=
  if pricingConfig.type = "" then ⟨false, ["Pricing type is required"]⟩
  else
    let errors : List String :=
      match pricingConfig.type with
      | "STATIC" =>
        match pricingConfig.base_price with
        | none => ["Static pricing requires a valid base_price"]
        | some p => if p < 0 then ["Static pricing requires a valid base_price"] else []
      | "TIERED" =>
        if pricingConfig.tiers.isEmpty then
          ["Tiered pricing requires at least one tier"]
        else tierOverlapErrors 0 (sortTiers pricingConfig.tiers)
      | "DISCOUNTED" =>
        (match pricingConfig.base_price with
         | none => ["Discounted pricing requires a valid base_price"]
         | some p => if p < 0 then ["Discounted pricing requires a valid base_price"] else []) ++
        (match pricingConfig.discount with
         | none => ["Discounted pricing requires discount configuration"]
         | some d =>
           match d.type with
           | none => ["Discounted pricing requires discount configuration"]
           | some _ => [])
      | "DYNAMIC" =>
        (if pricingConfig.dynamic_rules.isEmpty then
          ["Dynamic pricing requires at least one rule"]
         else []) ++
        (match pricingConfig.default_price with
         | none => ["Dynamic pricing requires a default_price"]
         | some _ => [])
      | "COMPLIMENTARY" => []
      | t => ["Unknown pricing type: " ++ t]
    ⟨errors.isEmpty, errors⟩

/-! ## Price orchestrator (`ItemService.calculatePrice`) -/

/-- A caller-supplied add-on selection
(`{ addon_group, addon_ids }` entries of the `addons` option). -/
structure AddonSelection where
  addon_group : ℕ
  addon_ids : List ℕ
deriving Repr, DecidableEq

/-- One entry of the quote's `addons_details` trail. -/
structure AddonDetail where
  group_name : String
  selected_addons : List (String × ℚ)
  total_price : ℚ
deriving Repr, DecidableEq

/-- The `pricing_details` sub-object of the quote response. -/
structure PricingDetails where
  pricing_type : String
  pricing_rule_applied : String
  unit_price : ℚ
  quantity : ℕ
  base_price : ℚ
  discount_amount : ℚ
deriving Repr, DecidableEq

/-- The `tax` sub-object of the quote response. -/
structure TaxInfo where
  applicable : Bool
  percentage : ℚ
  inherited_from : String
  amount : ℚ
deriving Repr, DecidableEq

/-- The quote response of `ItemService.calculatePrice` (the `item` echo
and `calculated_at` timestamp are not modelled). -/
structure Quote where
  pricing_details : PricingDetails
  addons_details : List AddonDetail
  addons_total : ℚ
  subtotal : ℚ
  tax : TaxInfo
  final_price : ℚ
deriving Repr, DecidableEq

/-- The `for (const addonSelection of addons)` loop of
`ItemService.calculatePrice`: look the selection's group up among the
item's attached groups (`item.addon_groups.find`); a selection whose
group is not attached is skipped; an attached group validates the
selection (throwing `validation.error` on failure), then contributes
`calculateSelectedPrice` to the running total and an entry to
`addonDetails`. -/
def processAddonSelections (groups : List AddonGroup) :
    List AddonSelection → Except String (ℚ × List AddonDetail)
  | [] => .ok (0, [])
  | sel :: rest =>
    match groups.find? (fun g => g.id == sel.addon_group) with
    | none => processAddonSelections groups rest
    | some addonGroup =>
      let validation := addonGroup.validateSelections sel.addon_ids
      if validation.valid then
        let addonPrice := addonGroup.calculateSelectedPrice sel.addon_ids
        let selectedAddons := addonGroup.addons.filter
          (fun a => sel.addon_ids.contains a.id)
        match processAddonSelections groups rest with
        | .ok (total, details) =>
          .ok (addonPrice + total,
            ⟨addonGroup.name, selectedAddons.map (fun a => (a.name, a.price)),
             addonPrice⟩ :: details)
        | .error e => .error e
      else .error (validation.error.getD (""))

/-- `ItemService.calculatePrice` for an item already fetched and
populated (the service throws 404 before this point when `findById`
fails): inactive check, pricing engine, add-on loop, subtotal, effective
tax, `TaxEngine.calculateTax`, assembled quote. The `datetime` option is
abstracted to its day-of-week and `HH:MM` projections. -/
def calculatePrice (item : Item) (quantity : ℕ) (dayOfWeek : ℕ)
    (currentTime : HM) (addons : List AddonSelection) : Except String Quote :=
  if !item.is_active then .error ("Item is not available")
  else
    match enginePrice item.pricing quantity dayOfWeek currentTime with
    | .error e => .error e
    | .ok priceResult =>
      match processAddonSelections item.addon_groups addons with
      | .error e => .error e
      | .ok (addonsTotal, addonDetails) =>
        let subtotal := priceResult.calculated_price + addonsTotal
        let effectiveTax := getEffectiveTax item
        let taxCalculation := calculateTax subtotal effectiveTax.tax_percentage
        .ok
          { pricing_details :=
              ⟨priceResult.pricing_type, priceResult.pricing_rule_applied,
               priceResult.unit_price, priceResult.quantity,
               priceResult.base_price, priceResult.discount_amount⟩
            addons_details := addonDetails
            addons_total := addonsTotal
            subtotal := subtotal
            tax := ⟨effectiveTax.tax_applicable, effectiveTax.tax_percentage,
                    effectiveTax.inherited_from, taxCalculation.tax_amount⟩
            final_price := taxCalculation.total_with_tax }

/-! ## Bookings (`models/Booking.js`, `BookingService`) -/

/-- A stored add-on selection snapshot (`selectedAddonSchema`). -/
structure SelectedAddon where
  addon_group : ℕ
  addon_ids : List ℕ
  price : ℚ
deriving Repr, DecidableEq

/-- The stored `priceBreakdownSchema` snapshot. -/
structure PriceBreakdown where
  base_price : ℚ
  pricing_type : String
  pricing_rule_applied : String
  discount_amount : ℚ
  addons_total : ℚ
  subtotal : ℚ
  tax_percentage : ℚ
  tax_amount : ℚ
  final_price : ℚ
deriving Repr, DecidableEq

/-- A booking document (`bookingSchema`); customer/notes metadata is not
modelled. -/
structure Booking where
  id : ℕ
  item : ℕ
  booking_date : BDate
  start_time : HM
  end_time : HM
  quantity : ℕ
  selected_addons : List SelectedAddon
  price_breakdown : Option PriceBreakdown
  status : String
deriving Repr, DecidableEq

/-- `bookingSchema.statics.isTimeOverlapping`:
`s1 < e2 && e1 > s2` on minutes-of-day. -/
def isTimeOverlapping (start1 end1 start2 end2 : HM) : Bool :=
  decide (toMinutes start1 < toMinutes end2) &&
  decide (toMinutes end1 > toMinutes start2)

/-- The `$or` of the `findConflicts` Mongo query, applied to an existing
booking's times (string comparisons on canonical `"HH:MM"` are the
lexicographic `hmLe`/`hmLt`): starts-during, ends-during, or fully
contained. -/
def conflictsQueryTimes (bStart bEnd startTime endTime : HM) : Bool :=
  (hmLe bStart startTime && hmLt startTime bEnd) ||
  (hmLt bStart endTime && hmLe endTime bEnd) ||
  (hmLe startTime bStart && hmLe bEnd endTime)

/-- `bookingSchema.statics.findConflicts`: the stored bookings matching
`item`, `booking_date`, `status ∉ {CANCELLED}`, the three-case time
query, and (when given) `_id ≠ excludeBookingId`. -/
def findConflicts (bookings : List Booking) (itemId : ℕ) (bookingDate : BDate)
    (startTime endTime : HM) (excludeBookingId : Option ℕ) : List Booking :=
  bookings.filter fun b =>
    b.item == itemId && b.booking_date == bookingDate &&
    !(b.status == "CANCELLED") &&
    conflictsQueryTimes b.start_time b.end_time startTime endTime &&
    (match excludeBookingId with
     | none => true
     | some i => !(b.id == i))

/-- `BookingService.isTimeWithinSlot`: `st >= ss && et <= se` on
minutes-of-day. -/
def isTimeWithinSlot (startTime endTime slotStart slotEnd : HM) : Bool :=
  decide (toMinutes slotStart ≤ toMinutes startTime) &&
  decide (toMinutes endTime ≤ toMinutes slotEnd)

/-- Result shape of `BookingService.checkAvailability`. -/
structure AvailabilityResult where
  available : Bool
  reason : Option String
  slot : Option AvailabilitySlot
deriving Repr, DecidableEq

/-- `BookingService.checkAvailability`: with no declared slots every
time is available; otherwise the first slot on the date's day-of-week
that fully contains `[start, end)` is returned, and with no such slot
the request is outside available hours. -/
def checkAvailability (item : Item) (dayOfWeek : ℕ)
    (startTime endTime : HM) : AvailabilityResult :=
  if item.availability_slots.isEmpty then ⟨true, none, none⟩
  else
    match item.availability_slots.find?
        (fun slot => slot.day == dayOfWeek &&
          isTimeWithinSlot startTime endTime slot.start_time slot.end_time) with
    | none => ⟨false, some ("Requested time slot is not within available hours"), none⟩
    | some slot => ⟨true, none, some slot⟩

/-- The `price_breakdown` snapshot assembled from a quote in
`BookingService.create`/`BookingService.update`. -/
def quoteToPriceBreakdown (q : Quote) : PriceBreakdown :=
  { base_price := q.pricing_details.base_price
    pricing_type := q.pricing_details.pricing_type
    pricing_rule_applied := q.pricing_details.pricing_rule_applied
    discount_amount := q.pricing_details.discount_amount
    addons_total := q.addons_total
    subtotal := q.subtotal
    tax_percentage := q.tax.percentage
    tax_amount := q.tax.amount
    final_price := q.final_price }

/-- The update payload of `BookingService.update` (fields absent from
the request are `none`). -/
structure BookingUpdateData where
  booking_date : Option BDate := none
  start_time : Option HM := none
  end_time : Option HM := none
  quantity : Option ℕ := none
  selected_addons : Option (List SelectedAddon) := none
  status : Option String := none
deriving Repr, DecidableEq

/-- The final `Object.assign(booking, data)` of `BookingService.update`,
with `price_breakdown` replaced when the service recomputed it. -/
def applyUpdate (booking : Booking) (data : BookingUpdateData)
    (newBreakdown : Option PriceBreakdown) : Booking :=
  { booking with
    booking_date := data.booking_date.getD booking.booking_date
    start_time := data.start_time.getD booking.start_time
    end_time := data.end_time.getD booking.end_time
    quantity := data.quantity.getD booking.quantity
    selected_addons := data.selected_addons.getD booking.selected_addons
    status := data.status.getD booking.status
    price_breakdown :=
      match newBreakdown with
      | some pb => some pb
      | none => booking.price_breakdown }

/-- `BookingService.update` for a booking already fetched (404 handled
before this point), with the item re-fetched for any price
recalculation and the stored bookings passed for the conflict query:
refuse cancelled/completed bookings; when a time field changes run
`findConflicts` excluding this booking and refuse on any hit; when
`quantity` or `selected_addons` changes re-run
`ItemService.calculatePrice` with the merged quantity, date+start time
and add-ons and store the fresh breakdown; finally merge the payload
into the document. -/
def updateBooking (bookings : List Booking) (item : Item) (booking : Booking)
    (data : BookingUpdateData) : Except String Booking :=
  if booking.status = "CANCELLED" ∨ booking.status = "COMPLETED" then
    .error ("Cannot update " ++ booking.status.toLower ++ " booking")
  else
    let newStartTime := data.start_time.getD booking.start_time
    let newEndTime := data.end_time.getD booking.end_time
    let newDate := data.booking_date.getD booking.booking_date
    let timeChanged :=
      data.start_time.isSome || data.end_time.isSome || data.booking_date.isSome
    if timeChanged &&
        !(findConflicts bookings booking.item newDate newStartTime newEndTime
            (some booking.id)).isEmpty then
      .error ("New time slot conflicts with existing bookings")
    else if data.quantity.isSome || data.selected_addons.isSome then
      let addonsForPricing :=
        (data.selected_addons.getD booking.selected_addons).map
          (fun a => AddonSelection.mk a.addon_group a.addon_ids)
      match calculatePrice item (data.quantity.getD booking.quantity)
          newDate.dow newStartTime addonsForPricing with
      | .error e => .error e
      | .ok q => .ok (applyUpdate booking data (some (quoteToPriceBreakdown q)))
    else .ok (applyUpdate booking data none)

/-! ## Spec-side definitions

These follow the wording of the specification (§4.1 tax resolution as
"the first explicit setting found walking the chain", §4.2 tiered
evaluation result shapes) and exist to be compared with the embedded
source functions. -/

/-- One station of the spec's tax-inheritance walk: the tri-state
setting, the stored percentage, the kind tag and the entity id. -/
structure TaxEntry where
  setting : Option Bool
  stored : Option ℚ
  kind : String
  source : ℕ
deriving Repr, DecidableEq

/-- Spec §4.1: return the first explicit (non-unset) setting found along
the walk, tagged with its owner's kind, forcing the percentage to 0 when
tax is not applicable; with no explicit setting anywhere, the no-tax
default. -/
def firstExplicitTax : List TaxEntry → TaxResult
  | [] => ⟨false, 0, "default", none⟩
  | e :: rest =>
    match e.setting with
    | some b => ⟨b, if b then e.stored.getD 0 else 0, e.kind, some e.source⟩
    | none => firstExplicitTax rest

/-- The entry contributed by the item's directly referenced category. -/
def itemCategoryEntries (item : Item) : List TaxEntry :=
  match item.category with
  | some c => [⟨some c.tax_applicable, c.tax_percentage, "category", c.id⟩]
  | none => []

/-- The walk order of the tax resolution: the item itself, then its
subcategory when it resolves, then that subcategory's category — falling
back to the item's direct category when the subcategory (or its
category) does not resolve. Category-level settings are always explicit
(the Category schema defaults `tax_applicable` to `false`, never null). -/
def taxChain (item : Item) : List TaxEntry :=
  ⟨item.tax_applicable, item.tax_percentage, "item", item.id⟩ ::
  (match item.subcategory with
   | some sub =>
     ⟨sub.tax_applicable, sub.tax_percentage, "subcategory", sub.id⟩ ::
     (match sub.category with
      | some c => [⟨some c.tax_applicable, c.tax_percentage, "category", c.id⟩]
      | none => itemCategoryEntries item)
   | none => itemCategoryEntries item)

/-- The result of `calculateTieredPrice` when tier `t` matches. -/
def matchedTierResult (t : Tier) (quantity : ℕ) : PriceResult :=
  { pricing_type := "TIERED"
    pricing_rule_applied := tierLabel t
    tier_details := some t
    unit_price := t.price
    quantity := quantity
    base_price := t.price * quantity
    discount_amount := 0
    calculated_price := t.price * quantity }

/-- The result of `calculateTieredPrice` when no tier matches and tier
`t` (the one with the highest range) is the fallback. -/
def overflowTierResult (t : Tier) (quantity : ℕ) : PriceResult :=
  { pricing_type := "TIERED"
    pricing_rule_applied := "Default/Overflow"
    tier_details := some t
    unit_price := t.price
    quantity := quantity
    base_price := t.price * quantity
    discount_amount := 0
    calculated_price := t.price * quantity }

/-- The result of `calculateTieredPrice` with no tiers at all: the
configured default unit price. -/
def overflowDefaultResult (unitPrice : ℚ) (quantity : ℕ) : PriceResult :=
  { pricing_type := "TIERED"
    pricing_rule_applied := "Default/Overflow"
    tier_details := none
    unit_price := unitPrice
    quantity := quantity
    base_price := unitPrice * quantity
    discount_amount := 0
    calculated_price := unitPrice * quantity }

/-! ## Concrete fixtures used by the example theorems and witnesses -/

/-- Category with a 5% explicit tax, parent of `c1item`. -/
def c1category : Category := ⟨10, "Meals", true, some 5, true⟩

/-- An active addon priced 20. -/
def c1addon : Addon := ⟨101, "Extra", 20, true⟩

/-- A mandatory single-choice group holding `c1addon`. -/
def c1group : AddonGroup := ⟨100, "Extras", "MANDATORY", "SINGLE", 1, 1, [c1addon], true⟩

/-- Active item: Static pricing at base 100, tax inherited from
`c1category`, one attached add-on group. -/
def c1item : Item :=
  ⟨1, "Thali", some c1category, none, none, none,
   ⟨"STATIC", some 100, [], none, [], none⟩,
   false, [], [c1group], true⟩

/-- The full quote produced for `c1item` at quantity 2 with the single
addon selected. -/
def c1quote : Quote :=
  ⟨⟨"STATIC", "Fixed Price", 100, 2, 200, 0⟩,
   [⟨"Extras", [("Extra", 20)], 20⟩], 20, 220,
   ⟨true, 5, "category", 11⟩, 231⟩

/-- Category with a 10% explicit tax, parent of `c5item`. -/
def c5category : Category := ⟨20, "Snacks", true, some 10, true⟩

/-- Active item: Discounted pricing, base 1.48 with a 70% discount, so a
quantity-1 quote has subtotal 0.444 — three decimal places going into
the tax step. -/
def c5item : Item :=
  ⟨2, "Deal", some c5category, none, none, none,
   ⟨"DISCOUNTED", some (37/25), [], some ⟨some ("PERCENTAGE"), some 70⟩, [], none⟩,
   false, [], [], true⟩

/-- Category with no applicable tax, parent of `c4item`. -/
def c4category : Category := ⟨30, "Rooms", false, none, true⟩

/-- Active bookable item with Static pricing at base 100. -/
def c4item : Item :=
  ⟨3, "Room", some c4category, none, none, none,
   ⟨"STATIC", some 100, [], none, [], none⟩,
   true, [], [], true⟩

/-- A stale stored price breakdown (written when the item's base price
was 50). -/
def c4stale : PriceBreakdown :=
  ⟨50, "STATIC", "Fixed Price", 0, 0, 50, 0, 0, 50⟩

/-- The breakdown a fresh quote of `c4item` at quantity 1 yields. -/
def c4fresh : PriceBreakdown :=
  ⟨100, "STATIC", "Fixed Price", 0, 0, 100, 0, 0, 100⟩

/-- A pending booking of `c4item` carrying the stale breakdown. -/
def c4booking : Booking :=
  ⟨11, 3, ⟨100, 2⟩, ⟨9, 0⟩, ⟨10, 0⟩, 1, [], some c4stale, "PENDING"⟩

/-- An update payload revising only the start time. -/
def c4update : BookingUpdateData := { start_time := some ⟨9, 30⟩ }

/-- An update payload revising only the quantity. -/
def w4data : BookingUpdateData := { quantity := some 2 }

/-- The breakdown a fresh quote of `c4item` at quantity 2 yields. -/
def w4fresh : PriceBreakdown :=
  ⟨200, "STATIC", "Fixed Price", 0, 0, 200, 0, 0, 200⟩

/-- `c4booking` after the quantity-2 update: quantity and breakdown
revised. -/
def w4booking : Booking :=
  ⟨11, 3, ⟨100, 2⟩, ⟨9, 0⟩, ⟨10, 0⟩, 2, [], some w4fresh, "PENDING"⟩

/-- The quote of `c4item` at quantity 2 (no add-ons, no applicable
tax). -/
def w4quote : Quote :=
  ⟨⟨"STATIC", "Fixed Price", 100, 2, 200, 0⟩, [], 0, 200,
   ⟨false, 0, "category", 0⟩, 200⟩

/-- A confirmed 09:30-10:30 booking on item 1. -/
def w2booking : Booking :=
  ⟨7, 1, ⟨0, 4⟩, ⟨9, 30⟩, ⟨10, 30⟩, 1, [], none, "CONFIRMED"⟩

/-- A confirmed 09:00-10:00 booking on item 1. -/
def w2booking2 : Booking :=
  ⟨8, 1, ⟨0, 4⟩, ⟨9, 0⟩, ⟨10, 0⟩, 1, [], none, "CONFIRMED"⟩

/-- An overnight dynamic rule with window 22:00-02:00 and no day set. -/
def nightRule : DynamicRule := ⟨"Night", none, ⟨22, 0⟩, ⟨2, 0⟩, 50, some 1⟩

/-- A discounted config with a degenerate 150% discount. -/
def w3config : PricingConfig :=
  ⟨"DISCOUNTED", some 10, [], some ⟨some ("PERCENTAGE"), some 150⟩, [], none⟩

/-- A valid two-tier config: 1-5 at 10, 6-10 at 8. -/
def w8config : PricingConfig :=
  ⟨"TIERED", none, [⟨1, 5, 10⟩, ⟨6, 10, 8⟩], none, [], none⟩

/-- Bookable item with a single Monday 09:00-17:00 slot. -/
def w9item : Item :=
  ⟨4, "Court", some c4category, none, none, none,
   ⟨"STATIC", some 100, [], none, [], none⟩,
   true, [⟨1, ⟨9, 0⟩, ⟨17, 0⟩, 2⟩], [], true⟩

/-- Item attached to the mandatory group `c1group`, used to show a
mandatory group can be omitted from a quote. -/
def w10item : Item :=
  ⟨5, "Combo", some c4category, none, none, none,
   ⟨"STATIC", some 40, [], none, [], none⟩,
   false, [], [c1group], true⟩

/-- An item with every tax setting unset and no resolvable ancestors. -/
def w6item : Item :=
  ⟨6, "Orphan", none, none, none, some 12,
   ⟨"STATIC", some 1, [], none, [], none⟩,
   false, [], [], true⟩

/-! ## Helper lemmas -/

/-- On well-formed times, lexicographic string comparison agrees with
minutes-of-day comparison. -/
theorem hmLe_iff {a b : HM} (ha : a.mm < 60) (hb : b.mm < 60) :
    hmLe a b = true ↔ toMinutes a ≤ toMinutes b := by
  simp only [hmLe, toMinutes, Bool.or_eq_true, Bool.and_eq_true, decide_eq_true_eq,
    beq_iff_eq]
  omega

/-- On well-formed times, lexicographic strict comparison agrees with
minutes-of-day comparison. -/
theorem hmLt_iff {a b : HM} (ha : a.mm < 60) (hb : b.mm < 60) :
    hmLt a b = true ↔ toMinutes a < toMinutes b := by
  simp only [hmLt, toMinutes, Bool.or_eq_true, Bool.and_eq_true, decide_eq_true_eq,
    beq_iff_eq]
  omega

/-- Clamping a nonnegative discount at a nonnegative base keeps both the
discount and the remainder within `[0, base]`. -/
theorem min_clamp_bounds {x B : ℚ} (hx : 0 ≤ x) (hB : 0 ≤ B) :
    0 ≤ min x B ∧ min x B ≤ B ∧ 0 ≤ B - min x B ∧ B - min x B ≤ B := by
  have h1 : 0 ≤ min x B := le_min hx hB
  have h2 : min x B ≤ B := min_le_right _ _
  exact ⟨h1, h2, by linarith, by linarith⟩

/-! ## Claims -/

/-- Claim C7: a dynamic pricing rule matches an evaluation instant iff
the instant's day-of-week belongs to the rule's day set (an absent or
empty set matching every day) and its minute-of-day lies in the
`[start, end)` window, a window with `end < start` wrapping past
midnight; in particular the overnight 22:00-02:00 rule matches at 23:30
and at 01:00 but not at 12:00. -/
theorem dynamic_rule_match_iff :
    (∀ (rule : DynamicRule) (dayOfWeek : ℕ) (time : HM),
      ruleMatches rule dayOfWeek time = true ↔
        ((∀ days, rule.days = some days → days = [] ∨ dayOfWeek ∈ days) ∧
         (if toMinutes rule.end_time < toMinutes rule.start_time then
            toMinutes rule.start_time ≤ toMinutes time ∨
            toMinutes time < toMinutes rule.end_time
          else
            toMinutes rule.start_time ≤ toMinutes time ∧
            toMinutes time < toMinutes rule.end_time))) ∧
    ruleMatches nightRule 3 ⟨23, 30⟩ = true ∧
    ruleMatches nightRule 3 ⟨1, 0⟩ = true ∧
    ruleMatches nightRule 3 ⟨12, 0⟩ = false := by
  refine ⟨fun rule dayOfWeek time => ?_, by decide, by decide, by decide⟩
  simp only [ruleMatches, isTimeInRange, Bool.and_eq_true]
  constructor
  · rintro ⟨hday, htime⟩
    constructor
    · intro days hdays
      rw [hdays] at hday
      simpa [List.isEmpty_iff] using hday
    · split at htime <;> rename_i hcmp
      · simp only [if_pos hcmp]
        simpa using htime
      · simp only [if_neg hcmp]
        simpa using htime
  · rintro ⟨hday, htime⟩
    constructor
    · cases hdays : rule.days with
      | none => rfl
      | some days =>
        have := hday days hdays
        simpa [List.isEmpty_iff] using this
    · split <;> rename_i hcmp
      · rw [if_pos hcmp] at htime
        simpa using htime
      · rw [if_neg hcmp] at htime
        simpa using htime

/-- Claim C9: with no declared availability slots every request is
available; otherwise a request is available iff some slot on the date's
day-of-week fully contains the proposed `[start, end)`, and an
unavailable request carries the outside-available-hours reason. -/
theorem checkAvailability_iff (item : Item) (dayOfWeek : ℕ) (startTime endTime : HM) :
    ((checkAvailability item dayOfWeek startTime endTime).available = true ↔
      (item.availability_slots = [] ∨
        ∃ slot ∈ item.availability_slots, slot.day = dayOfWeek ∧
          toMinutes slot.start_time ≤ toMinutes startTime ∧
          toMinutes endTime ≤ toMinutes slot.end_time)) ∧
    ((checkAvailability item dayOfWeek startTime endTime).available = false →
      (checkAvailability item dayOfWeek startTime endTime).reason =
        some ("Requested time slot is not within available hours")) := by
  unfold checkAvailability
  by_cases hempty : item.availability_slots.isEmpty
  · rw [if_pos hempty]
    simp [List.isEmpty_iff.mp hempty]
  · rw [if_neg hempty]
    cases hfind : item.availability_slots.find?
        (fun slot => slot.day == dayOfWeek &&
          isTimeWithinSlot startTime endTime slot.start_time slot.end_time) with
    | none =>
      refine ⟨⟨fun hav => ?_, fun h => ?_⟩, fun _ => rfl⟩
      · simp at hav
      · rcases h with hnil | ⟨slot, hmem, hday, h1, h2⟩
        · exact absurd (List.isEmpty_iff.mpr hnil) hempty
        · have := List.find?_eq_none.mp hfind slot hmem
          simp only [Bool.and_eq_true, beq_iff_eq, isTimeWithinSlot,
            decide_eq_true_eq, not_and] at this
          exact (this hday h1 h2).elim
    | some slot =>
      have hmem := List.mem_of_find?_eq_some hfind
      have hpred := List.find?_some hfind
      simp only [Bool.and_eq_true, beq_iff_eq, isTimeWithinSlot,
        decide_eq_true_eq] at hpred
      refine ⟨⟨fun _ => ?_, fun _ => rfl⟩, fun h => ?_⟩
      · exact Or.inr ⟨slot, hmem, hpred.1, hpred.2.1, hpred.2.2⟩
      · simp at h

/-- Claim C3: for every discounted configuration with nonnegative base
price and discount value (the write-time validation bounds) and every
quantity, the computed discount is within `[0, base × quantity]`, so the
calculated price is as well. -/
theorem discounted_price_bounds (cfg : PricingConfig) (quantity : ℕ)
    (hq : 1 ≤ quantity)
    (hb : 0 ≤ cfg.base_price.getD 0)
    (hv : ∀ d, cfg.discount = some d → 0 ≤ d.value.getD 0) :
    0 ≤ (calculateDiscountedPrice cfg quantity).discount_amount ∧
    (calculateDiscountedPrice cfg quantity).discount_amount ≤
      cfg.base_price.getD 0 * quantity ∧
    0 ≤ (calculateDiscountedPrice cfg quantity).calculated_price ∧
    (calculateDiscountedPrice cfg quantity).calculated_price ≤
      cfg.base_price.getD 0 * quantity := by
  have hqnn : (0 : ℚ) ≤ (quantity : ℚ) := by positivity
  have hB : 0 ≤ cfg.base_price.getD 0 * (quantity : ℚ) := mul_nonneg hb hqnn
  obtain ⟨ty, bp, tiers, disc, dyn, dp⟩ := cfg
  simp only at hb hB ⊢
  rcases disc with _ | ⟨dt, dv⟩
  · simp only [calculateDiscountedPrice]
    exact min_clamp_bounds le_rfl hB
  · have hdv : 0 ≤ dv.getD 0 := by simpa using hv _ rfl
    rcases dt with _ | s
    · simp only [calculateDiscountedPrice]
      exact min_clamp_bounds le_rfl hB
    · by_cases h1 : s = "FLAT"
      · simp only [calculateDiscountedPrice, h1, if_true, if_pos]
        exact min_clamp_bounds hdv hB
      · by_cases h2 : s = "PERCENTAGE"
        · simp only [calculateDiscountedPrice, h1, h2, if_false, if_true]
          exact min_clamp_bounds (div_nonneg (mul_nonneg hB hdv) (by norm_num)) hB
        · simp only [calculateDiscountedPrice, h1, h2, if_false]
          exact min_clamp_bounds le_rfl hB

/-- The spec-side walk forces the percentage to 0 whenever tax is not
applicable. -/
theorem firstExplicitTax_percentage_zero (l : List TaxEntry)
    (h : (firstExplicitTax l).tax_applicable = false) :
    (firstExplicitTax l).tax_percentage = 0 := by
  induction l with
  | nil => rfl
  | cons e rest ih =>
    cases hs : e.setting with
    | none =>
      simp only [firstExplicitTax, hs] at h ⊢
      exact ih h
    | some b =>
      simp only [firstExplicitTax, hs] at h ⊢
      subst h
      rfl

/-- Claim C6: tax resolution returns the item's own setting when
explicit, otherwise the first explicit setting along the
subcategory-then-category walk tagged with that ancestor's kind, and the
no-tax default when nothing in the chain is explicit; in every result
the percentage is 0 whenever tax is not applicable. -/
theorem getEffectiveTax_first_explicit :
    (∀ item : Item, getEffectiveTax item = firstExplicitTax (taxChain item)) ∧
    (∀ item : Item, (getEffectiveTax item).tax_applicable = false →
      (getEffectiveTax item).tax_percentage = 0) := by
  have hmain : ∀ item : Item, getEffectiveTax item = firstExplicitTax (taxChain item) := by
    intro item
    obtain ⟨id, name, cat, sub, ta, tp, pr, bk, av, ag, ia⟩ := item
    cases ta with
    | some b => rfl
    | none =>
      cases sub with
      | none =>
        cases cat with
        | none => rfl
        | some c => rfl
      | some s =>
        obtain ⟨sid, sname, scat, sta, stp, sia⟩ := s
        cases sta with
        | some b => rfl
        | none =>
          cases scat with
          | some c => rfl
          | none =>
            cases cat with
            | none => rfl
            | some c => rfl
  refine ⟨hmain, fun item h => ?_⟩
  rw [hmain item] at h ⊢
  exact firstExplicitTax_percentage_zero _ h

/-- On well-formed intervals, the three-case disjunctive Mongo query of
`findConflicts` is the single half-open overlap test. -/
theorem conflictsQueryTimes_iff {bs be S E : HM}
    (h1 : bs.valid) (h2 : be.valid) (h3 : S.valid) (h4 : E.valid)
    (hSE : toMinutes S < toMinutes E) (hb : toMinutes bs < toMinutes be) :
    conflictsQueryTimes bs be S E = true ↔
      toMinutes bs < toMinutes E ∧ toMinutes S < toMinutes be := by
  unfold conflictsQueryTimes
  simp only [Bool.or_eq_true, Bool.and_eq_true,
    hmLe_iff h1.2 h3.2, hmLt_iff h3.2 h2.2, hmLt_iff h1.2 h4.2,
    hmLe_iff h4.2 h2.2, hmLe_iff h3.2 h1.2, hmLe_iff h2.2 h4.2]
  omega

/-- Claim C2: for well-formed half-open intervals, `findConflicts`
returns exactly the non-cancelled bookings on the same item and date
whose interval overlaps the proposed one (`s1 < e2` and `e1 > s2`); in
particular the three-case query is equivalent to that overlap test. -/
theorem findConflicts_exact
    (bookings : List Booking) (b : Booking) (itemId : ℕ) (d : BDate) (S E : HM)
    (hS : S.valid) (hE : E.valid)
    (hbs : b.start_time.valid) (hbe : b.end_time.valid)
    (hSE : toMinutes S < toMinutes E)
    (hb : toMinutes b.start_time < toMinutes b.end_time) :
    b ∈ findConflicts bookings itemId d S E none ↔
      b ∈ bookings ∧ b.item = itemId ∧ b.booking_date = d ∧
      b.status ≠ "CANCELLED" ∧
      toMinutes b.start_time < toMinutes E ∧ toMinutes S < toMinutes b.end_time := by
  unfold findConflicts
  rw [List.mem_filter]
  simp only [Bool.and_eq_true, beq_iff_eq, Bool.not_eq_true',
    beq_eq_false_iff_ne, ne_eq,
    conflictsQueryTimes_iff hbs hbe hS hE hSE hb]
  tauto

/-- Witness for claim C2: 09:00-10:00 conflicts with the stored
09:30-10:30 booking, while 10:00-11:00 does not conflict with a stored
09:00-10:00 booking. -/
theorem findConflicts_exact_witness :
    w2booking ∈ findConflicts [w2booking] 1 ⟨0, 4⟩ ⟨9, 0⟩ ⟨10, 0⟩ none ∧
    w2booking2 ∉ findConflicts [w2booking2] 1 ⟨0, 4⟩ ⟨10, 0⟩ ⟨11, 0⟩ none := by
  constructor
  · exact (findConflicts_exact [w2booking] w2booking 1 ⟨0, 4⟩ ⟨9, 0⟩ ⟨10, 0⟩
      (by decide) (by decide) (by decide) (by decide) (by decide) (by decide)).mpr
      ⟨List.mem_singleton.mpr rfl, rfl, rfl, by decide, by decide, by decide⟩
  · intro hmem
    have := (findConflicts_exact [w2booking2] w2booking2 1 ⟨0, 4⟩ ⟨10, 0⟩ ⟨11, 0⟩
      (by decide) (by decide) (by decide) (by decide) (by decide) (by decide)).mp hmem
    exact absurd this.2.2.2.2.2 (by decide)

/-- Witness for claim C3: the bounds at the degenerate 150% discount,
base 10, quantity 2 — the discount clamps to 20 and the price to 0. -/
theorem discounted_price_bounds_witness :
    0 ≤ (calculateDiscountedPrice w3config 2).discount_amount ∧
    (calculateDiscountedPrice w3config 2).discount_amount ≤
      w3config.base_price.getD 0 * ((2 : ℕ) : ℚ) ∧
    0 ≤ (calculateDiscountedPrice w3config 2).calculated_price ∧
    (calculateDiscountedPrice w3config 2).calculated_price ≤
      w3config.base_price.getD 0 * ((2 : ℕ) : ℚ) :=
  discounted_price_bounds w3config 2 (by norm_num)
    (by norm_num [w3config])
    (by
      intro d h
      simp only [w3config, Option.some.injEq] at h
      subst h
      norm_num)

/-- Witness for claim C6: an item with every setting unset and no
resolvable ancestors resolves to the no-tax default with percentage 0,
despite a stored percentage of 12. -/
theorem getEffectiveTax_first_explicit_witness :
    (getEffectiveTax w6item).tax_percentage = 0 :=
  getEffectiveTax_first_explicit.2 w6item (by decide)

/-- Witness for claim C7: the overnight rule, instantiated through the
equivalence at 23:59 on a Friday. -/
theorem dynamic_rule_match_iff_witness :
    ruleMatches nightRule 5 ⟨23, 59⟩ = true := by
  refine (dynamic_rule_match_iff.1 nightRule 5 ⟨23, 59⟩).mpr ⟨?_, ?_⟩
  · intro days h
    simp only [nightRule] at h
    cases h
  · decide

/-- Witness for claim C9: a Monday 10:00-11:00 request against the
Monday 09:00-17:00 slot is available. -/
theorem checkAvailability_iff_witness :
    (checkAvailability w9item 1 ⟨10, 0⟩ ⟨11, 0⟩).available = true :=
  ((checkAvailability_iff w9item 1 ⟨10, 0⟩ ⟨11, 0⟩).1).mpr
    (Or.inr ⟨⟨1, ⟨9, 0⟩, ⟨17, 0⟩, 2⟩, by decide, by decide, by decide, by decide⟩)

/-- Claim C1: the end-to-end quote for the active Static item at base
100, tax inherited from its category at 5%, one selected addon priced
20 and quantity 2: pricing amount 200, addons total 20, subtotal 220,
tax 11.00, final price 231.00. -/
theorem quote_end_to_end :
    (calculatePrice c1item 2 1 ⟨12, 0⟩ [⟨100, [101]⟩]).map
      (fun q => (q.pricing_details.base_price, q.addons_total, q.subtotal,
                 q.tax.amount, q.final_price))
      = Except.ok (200, 20, 220, 11, 231) := by
  simp only [calculatePrice, c1item, enginePrice, calculateStaticPrice,
    processAddonSelections, c1group, c1addon, AddonGroup.validateSelections,
    AddonGroup.calculateSelectedPrice, getEffectiveTax, itemCategoryTax,
    c1category, calculateTax, jsRound, round2, Except.map]
  norm_num

/-- Every successful pricing-engine result satisfies
`calculated_price = base_price - discount_amount`. -/
theorem enginePrice_calc_sub (cfg : PricingConfig) (quantity dayOfWeek : ℕ)
    (time : HM) (r : PriceResult)
    (h : enginePrice cfg quantity dayOfWeek time = .ok r) :
    r.calculated_price = r.base_price - r.discount_amount := by
  unfold enginePrice at h
  split at h
  · cases h
    simp [calculateStaticPrice]
  · cases h
    unfold calculateTieredPrice
    split
    · simp
    · split <;> simp
  · cases h
    simp [calculateComplimentaryPrice]
  · cases h
    simp [calculateDiscountedPrice]
  · cases h
    unfold calculateDynamicPrice
    split <;> simp
  · cases h

/-- Claim C5 (amended): in every successful quote the tax amount is the
raw tax `subtotal × percentage / 100` rounded half-up to two decimals,
the final price is `subtotal` plus the **unrounded** raw tax, rounded
half-up to two decimals, and the subtotal is the unrounded sum of the
pricing amount and the addons total. -/
theorem quote_rounding_amended (item : Item) (quantity dayOfWeek : ℕ)
    (time : HM) (addons : List AddonSelection) (q : Quote)
    (h : calculatePrice item quantity dayOfWeek time addons = .ok q) :
    q.tax.amount = round2 (q.subtotal * q.tax.percentage / 100) ∧
    q.final_price = round2 (q.subtotal + q.subtotal * q.tax.percentage / 100) ∧
    q.subtotal = q.pricing_details.base_price - q.pricing_details.discount_amount
      + q.addons_total := by
  unfold calculatePrice at h
  split at h
  · cases h
  · cases he : enginePrice item.pricing quantity dayOfWeek time with
    | error e =>
      rw [he] at h
      cases h
    | ok r =>
      rw [he] at h
      cases hp : processAddonSelections item.addon_groups addons with
      | error e =>
        rw [hp] at h
        cases h
      | ok pair =>
        obtain ⟨total, details⟩ := pair
        rw [hp] at h
        cases h
        refine ⟨rfl, rfl, ?_⟩
        have hcalc := enginePrice_calc_sub item.pricing quantity dayOfWeek time r he
        simp only [calculateTax]
        rw [hcalc]

/-- Counterexample to claim C5 as stated: for the Discounted item with
base 1.48, 70% off and 10% inherited tax, the quote has subtotal 0.444,
rounded tax amount 0.04 and final price 0.49 — but subtotal plus the
rounded tax amount, rounded, is 0.48, so the final price is not computed
from the rounded tax amount. -/
theorem final_price_rounding_counterexample :
    (calculatePrice c5item 1 1 ⟨12, 0⟩ []).map
      (fun q => (q.subtotal, q.tax.amount, q.final_price)) =
      Except.ok ((111 : ℚ)/250, (1 : ℚ)/25, (49 : ℚ)/100) ∧
    round2 ((111 : ℚ)/250 + (1 : ℚ)/25) = (48 : ℚ)/100 ∧
    ((49 : ℚ)/100) ≠ (48 : ℚ)/100 := by
  refine ⟨?_, ?_, by norm_num⟩
  · simp only [calculatePrice, c5item, enginePrice, calculateDiscountedPrice,
      processAddonSelections, getEffectiveTax, itemCategoryTax, c5category,
      calculateTax, jsRound, Except.map]
    have hne : (("PERCENTAGE" : String) = "FLAT") = False := by simp
    norm_num [hne, min_def]
  · norm_num [round2, jsRound]

/-- Witness for claim C5 (amended): the rounding relations hold on the
concrete end-to-end quote of `c1item`. -/
theorem quote_rounding_amended_witness :
    c1quote.tax.amount = round2 (c1quote.subtotal * c1quote.tax.percentage / 100) ∧
    c1quote.final_price =
      round2 (c1quote.subtotal + c1quote.subtotal * c1quote.tax.percentage / 100) ∧
    c1quote.subtotal = c1quote.pricing_details.base_price -
      c1quote.pricing_details.discount_amount + c1quote.addons_total :=
  quote_rounding_amended c1item 2 1 ⟨12, 0⟩ [⟨100, [101]⟩] c1quote (by
    simp only [calculatePrice, c1item, enginePrice, calculateStaticPrice,
      processAddonSelections, c1group, c1addon, AddonGroup.validateSelections,
      AddonGroup.calculateSelectedPrice, getEffectiveTax, itemCategoryTax,
      c1category, calculateTax, jsRound, c1quote]
    norm_num)

/-- Claim C10: the quote's add-on validation runs only over the caller's
selections — a selection naming an unattached group is silently dropped
(the quote is unchanged), and with no selections at all the quote
succeeds with addons total 0 even when an attached mandatory group
requires at least one selection. -/
theorem quote_addon_scoping (item : Item) (quantity dayOfWeek : ℕ) (time : HM)
    (sel : AddonSelection) (rest : List AddonSelection) (g : AddonGroup) :
    (sel.addon_group ∉ item.addon_groups.map AddonGroup.id →
      calculatePrice item quantity dayOfWeek time (sel :: rest) =
      calculatePrice item quantity dayOfWeek time rest) ∧
    (g ∈ item.addon_groups → 1 ≤ g.min_selections → item.is_active = true →
      ∀ r, enginePrice item.pricing quantity dayOfWeek time = .ok r →
        ∃ q, calculatePrice item quantity dayOfWeek time [] = .ok q ∧
          q.addons_total = 0) := by
  constructor
  · intro hno
    have hfind : item.addon_groups.find? (fun g' => g'.id == sel.addon_group) = none := by
      rw [List.find?_eq_none]
      intro x hx
      simp only [beq_iff_eq]
      intro heq
      exact hno (List.mem_map.mpr ⟨x, hx, heq⟩)
    have hfold : processAddonSelections item.addon_groups (sel :: rest) =
        processAddonSelections item.addon_groups rest := by
      conv_lhs => rw [processAddonSelections]
      rw [hfind]
    unfold calculatePrice
    rw [hfold]
  · intro hg hmin hact r hr
    have hcalc : calculatePrice item quantity dayOfWeek time [] =
        .ok { pricing_details := ⟨r.pricing_type, r.pricing_rule_applied,
                r.unit_price, r.quantity, r.base_price, r.discount_amount⟩
              addons_details := []
              addons_total := 0
              subtotal := r.calculated_price + 0
              tax := ⟨(getEffectiveTax item).tax_applicable,
                (getEffectiveTax item).tax_percentage,
                (getEffectiveTax item).inherited_from,
                (calculateTax (r.calculated_price + 0)
                  (getEffectiveTax item).tax_percentage).tax_amount⟩
              final_price := (calculateTax (r.calculated_price + 0)
                (getEffectiveTax item).tax_percentage).total_with_tax } := by
      unfold calculatePrice
      rw [if_neg (by simp [hact]), hr]
      rfl
    exact ⟨_, hcalc, rfl⟩

/-- Witness for claim C10: against the item whose only attached group is
mandatory, a selection naming the unattached group 999 leaves the quote
unchanged, and the empty selection list yields a quote with addons total
0. -/
theorem quote_addon_scoping_witness :
    calculatePrice w10item 1 1 ⟨12, 0⟩ [⟨999, [1]⟩] =
      calculatePrice w10item 1 1 ⟨12, 0⟩ [] ∧
    (calculatePrice w10item 1 1 ⟨12, 0⟩ []).map Quote.addons_total =
      Except.ok 0 := by
  have h := quote_addon_scoping w10item 1 1 ⟨12, 0⟩ ⟨999, [1]⟩ [] c1group
  refine ⟨h.1 (by decide), ?_⟩
  obtain ⟨q, hq, h0⟩ := h.2 (List.mem_singleton.mpr rfl) (by decide) rfl
    (calculateStaticPrice w10item.pricing 1) rfl
  rw [hq]
  simp [Except.map, h0]

/-- Claim C4 (amended): an update supplying a new quantity or new
add-ons triggers a full re-quote — afterwards the stored breakdown is
the quote freshly computed from the current item at the booking's merged
quantity, date/start time and add-ons. (A time-only revision does not
re-quote; see the counterexample.) -/
theorem update_requotes_on_quantity_or_addons
    (bookings : List Booking) (item : Item) (booking b' : Booking)
    (data : BookingUpdateData)
    (htrig : data.quantity.isSome ∨ data.selected_addons.isSome)
    (h : updateBooking bookings item booking data = .ok b') :
    ∃ q, calculatePrice item b'.quantity b'.booking_date.dow b'.start_time
        (b'.selected_addons.map (fun a => AddonSelection.mk a.addon_group a.addon_ids))
        = .ok q ∧
      b'.price_breakdown = some (quoteToPriceBreakdown q) := by
  have hcond : (data.quantity.isSome || data.selected_addons.isSome) = true := by
    rcases htrig with h1 | h1 <;> simp [h1]
  simp only [updateBooking] at h
  split at h
  · cases h
  · split at h
    · cases h
    · cases hc : calculatePrice item (data.quantity.getD booking.quantity)
          (data.booking_date.getD booking.booking_date).dow
          (data.start_time.getD booking.start_time)
          ((data.selected_addons.getD booking.selected_addons).map
            (fun a => AddonSelection.mk a.addon_group a.addon_ids)) with
      | error e =>
        rw [hc] at h
        cases h
      | ok q =>
        rw [hc] at h
        cases h
        exact ⟨q, by simpa [applyUpdate] using hc, by simp [applyUpdate]⟩

/-- Counterexample to claim C4 as stated: updating only the start time
of a pending booking leaves the stale stored breakdown (final price 50)
in place, while the fresh quote at the booking's new time yields final
price 100 — a time revision alone does not trigger a re-quote. -/
theorem update_time_only_keeps_stale_breakdown :
    (updateBooking [c4booking] c4item c4booking c4update).map
      (fun b => b.price_breakdown) = Except.ok (some c4stale) ∧
    (calculatePrice c4item c4booking.quantity c4booking.booking_date.dow
        (c4update.start_time.getD c4booking.start_time) []).map quoteToPriceBreakdown
      = Except.ok c4fresh ∧
    c4fresh ≠ c4stale := by
  refine ⟨rfl, ?_, ?_⟩
  · simp only [calculatePrice, c4item, c4booking, c4update, enginePrice,
      calculateStaticPrice, processAddonSelections, getEffectiveTax,
      itemCategoryTax, c4category, calculateTax, jsRound, quoteToPriceBreakdown,
      c4fresh, Except.map, Option.getD]
    norm_num
  · intro hcontra
    have := congrArg PriceBreakdown.base_price hcontra
    norm_num [c4fresh, c4stale] at this

/-- Witness for claim C4 (amended): the quantity-2 update of the stale
pending booking stores exactly the fresh quantity-2 quote. -/
theorem update_requotes_on_quantity_or_addons_witness :
    ∃ q, calculatePrice c4item w4booking.quantity w4booking.booking_date.dow
        w4booking.start_time (w4booking.selected_addons.map
          (fun a => AddonSelection.mk a.addon_group a.addon_ids))
        = .ok q ∧
      w4booking.price_breakdown = some (quoteToPriceBreakdown q) := by
  have hcalc : calculatePrice c4item 2 2 ⟨9, 0⟩ [] = .ok w4quote := by
    simp only [calculatePrice, c4item, enginePrice, calculateStaticPrice,
      processAddonSelections, getEffectiveTax, itemCategoryTax, c4category,
      calculateTax, jsRound, w4quote]
    norm_num
  have hupd : updateBooking [] c4item c4booking w4data = .ok w4booking := by
    simp only [updateBooking]
    rw [if_neg (by decide)]
    simp [w4data, c4booking, List.map_nil]
    rw [hcalc]
    simp [applyUpdate, w4booking, w4fresh, w4quote, quoteToPriceBreakdown,
      c4booking, c4stale]
  exact update_requotes_on_quantity_or_addons [] c4item c4booking w4booking w4data
    (Or.inl rfl) hupd

/-- The sorted tier list is ascending in `min_quantity`. -/
theorem sortTiers_sorted (l : List Tier) : (sortTiers l).Pairwise tierLE :=
  List.sorted_insertionSort tierLE l

/-- Sorting permutes the tiers. -/
theorem sortTiers_perm (l : List Tier) : (sortTiers l).Perm l :=
  List.perm_insertionSort tierLE l

/-- The adjacent-pair scan reports no error exactly when consecutive
sorted tiers are strictly separated (`max < next min`). -/
theorem tierOverlapErrors_nil_iff (i : ℕ) (l : List Tier) :
    tierOverlapErrors i l = [] ↔
      l.Chain' (fun a b => a.max_quantity < b.min_quantity) := by
  induction l generalizing i with
  | nil => simp [tierOverlapErrors]
  | cons a rest ih =>
    cases rest with
    | nil => simp [tierOverlapErrors]
    | cons b rest2 =>
      rw [tierOverlapErrors, List.chain'_cons]
      by_cases hab : b.min_quantity ≤ a.max_quantity
      · simp [hab]
      · simp only [hab, if_false, List.nil_append]
        rw [ih (i + 1)]
        constructor
        · intro h
          exact ⟨by omega, h⟩
        · intro h
          exact h.2

/-- A validated TIERED configuration has at least one tier and strictly
separated sorted tiers. -/
theorem tiered_valid_parts (cfg : PricingConfig)
    (htype : cfg.type = "TIERED")
    (hval : (validatePricingConfig cfg).valid = true) :
    cfg.tiers ≠ [] ∧
      (sortTiers cfg.tiers).Chain' (fun a b => a.max_quantity < b.min_quantity) := by
  unfold validatePricingConfig at hval
  rw [htype] at hval
  rw [if_neg (by decide)] at hval
  simp only at hval
  by_cases hemp : cfg.tiers.isEmpty
  · rw [if_pos hemp] at hval
    simp at hval
  · rw [if_neg hemp] at hval
    refine ⟨fun hnil => hemp (by simp [hnil]), ?_⟩
    rw [← tierOverlapErrors_nil_iff 0]
    exact List.isEmpty_iff.mp hval

/-- In a sorted, strictly separated tier list, the first matching tier
is the only matching tier. -/
theorem find?_tier_unique (l : List Tier) (q : ℕ)
    (hsort : l.Pairwise tierLE)
    (hchain : l.Chain' (fun a b => a.max_quantity < b.min_quantity))
    (t : Tier) (ht : t ∈ l)
    (h1 : t.min_quantity ≤ q) (h2 : q ≤ t.max_quantity) :
    l.find? (fun tier => decide (tier.min_quantity ≤ q) &&
      decide (q ≤ tier.max_quantity)) = some t := by
  induction l with
  | nil => cases ht
  | cons a rest ih =>
    rw [List.pairwise_cons] at hsort
    rcases List.mem_cons.mp ht with rfl | htr
    · rw [List.find?_cons_of_pos]
      simp [h1, h2]
    · have hne : ¬(a.min_quantity ≤ q ∧ q ≤ a.max_quantity) := by
        rintro ⟨ha1, ha2⟩
        cases rest with
        | nil => cases htr
        | cons b rest2 =>
          have hab : a.max_quantity < b.min_quantity :=
            (List.chain'_cons.mp hchain).1
          have hbt : b.min_quantity ≤ t.min_quantity := by
            rcases List.mem_cons.mp htr with rfl | htr2
            · exact le_refl _
            · exact (List.pairwise_cons.mp (hsort.2)).1 t htr2
          omega
      rw [List.find?_cons_of_neg]
      · exact ih hsort.2 hchain.tail htr
      · simpa using hne

/-- Every member of a sorted tier list has `min_quantity` at most that
of the last tier. -/
theorem tier_getLast_max (l : List Tier) (hsort : l.Pairwise tierLE)
    (t : Tier) (ht : t ∈ l) (f : Tier) (hf : l.getLast? = some f) :
    t.min_quantity ≤ f.min_quantity := by
  induction l with
  | nil => cases ht
  | cons a rest ih =>
    rw [List.pairwise_cons] at hsort
    cases rest with
    | nil =>
      rcases List.mem_cons.mp ht with rfl | htr
      · simp only [List.getLast?_singleton, Option.some.injEq] at hf
        rw [hf]
      · cases htr
    | cons b rest2 =>
      rw [List.getLast?_cons_cons] at hf
      rcases List.mem_cons.mp ht with rfl | htr
      · have hfmem : f ∈ b :: rest2 := List.mem_of_mem_getLast? hf
        exact hsort.1 f hfmem
      · exact ih hsort.2 htr hf

/-- Claim C8: for validated tiered configurations the first (and only)
tier containing the quantity is selected — boundary quantities select
their own tier — and with no containing tier the fallback is the tier
with the highest range labelled `Default/Overflow` (or the configured
default unit price when there are no tiers at all); the amount is the
matched unit price times the quantity. -/
theorem tiered_boundary_and_overflow (cfg : PricingConfig) (quantity : ℕ)
    (hq : 1 ≤ quantity) :
    (cfg.type = "TIERED" → (validatePricingConfig cfg).valid = true →
      ∀ t ∈ cfg.tiers, t.min_quantity ≤ quantity → quantity ≤ t.max_quantity →
        calculateTieredPrice cfg quantity = matchedTierResult t quantity) ∧
    (cfg.type = "TIERED" → (validatePricingConfig cfg).valid = true →
      (∀ t ∈ cfg.tiers, ¬(t.min_quantity ≤ quantity ∧ quantity ≤ t.max_quantity)) →
      ∃ f, f ∈ cfg.tiers ∧ (∀ t ∈ cfg.tiers, t.min_quantity ≤ f.min_quantity) ∧
        calculateTieredPrice cfg quantity = overflowTierResult f quantity) ∧
    (cfg.tiers = [] →
      calculateTieredPrice cfg quantity =
        overflowDefaultResult (cfg.default_price.getD 0) quantity) := by
  refine ⟨?_, ?_, ?_⟩
  · intro htype hval t ht hmin hmax
    obtain ⟨hne, hchain⟩ := tiered_valid_parts cfg htype hval
    have hfind := find?_tier_unique (sortTiers cfg.tiers) quantity
      (sortTiers_sorted cfg.tiers) hchain t
      ((sortTiers_perm cfg.tiers).mem_iff.mpr ht) hmin hmax
    unfold calculateTieredPrice
    rw [hfind]
    rfl
  · intro htype hval hno
    obtain ⟨hne, hchain⟩ := tiered_valid_parts cfg htype hval
    have hfind : (sortTiers cfg.tiers).find?
        (fun tier => decide (tier.min_quantity ≤ quantity) &&
          decide (quantity ≤ tier.max_quantity)) = none := by
      rw [List.find?_eq_none]
      intro x hx
      have hxmem : x ∈ cfg.tiers := (sortTiers_perm cfg.tiers).mem_iff.mp hx
      simpa using hno x hxmem
    have hsne : sortTiers cfg.tiers ≠ [] := by
      intro hsnil
      exact hne (List.Perm.eq_nil (hsnil ▸ (sortTiers_perm cfg.tiers).symm))
    obtain ⟨f, hf⟩ : ∃ f, (sortTiers cfg.tiers).getLast? = some f := by
      cases hlast : (sortTiers cfg.tiers).getLast? with
      | none => exact absurd (List.getLast?_eq_none_iff.mp hlast) hsne
      | some f => exact ⟨f, rfl⟩
    refine ⟨f, (sortTiers_perm cfg.tiers).mem_iff.mp (List.mem_of_mem_getLast? hf), ?_, ?_⟩
    · intro t ht
      exact tier_getLast_max (sortTiers cfg.tiers) (sortTiers_sorted cfg.tiers) t
        ((sortTiers_perm cfg.tiers).mem_iff.mpr ht) f hf
    · unfold calculateTieredPrice
      rw [hfind, hf]
      rfl
  · intro hnil
    unfold calculateTieredPrice
    rw [hnil]
    rfl

/-- Witness for claim C8: at the boundary quantity 5 the 1-5 tier at
unit price 10 is selected (not the adjacent 6-10 tier), and the
overflowing quantity 11 falls back to the 6-10 tier labelled
`Default/Overflow`. -/
theorem tiered_boundary_and_overflow_witness :
    calculateTieredPrice w8config 5 = matchedTierResult ⟨1, 5, 10⟩ 5 ∧
    calculateTieredPrice w8config 11 = overflowTierResult ⟨6, 10, 8⟩ 11 := by
  constructor
  · exact (tiered_boundary_and_overflow w8config 5 (by norm_num)).1 rfl (by decide)
      ⟨1, 5, 10⟩ (List.mem_cons_self _ _) (by norm_num) (by norm_num)
  · obtain ⟨f, hfmem, hfmax, heq⟩ :=
      (tiered_boundary_and_overflow w8config 11 (by norm_num)).2.1 rfl
        (by decide) (by decide)
    rcases List.mem_cons.mp hfmem with rfl | h2
    · have := hfmax ⟨6, 10, 8⟩ (List.mem_cons_of_mem _ (List.mem_cons_self _ _))
      norm_num at this
    · rcases List.mem_cons.mp h2 with rfl | h3
      · exact heq
      · simp at h3

end Guestara
